import Mathlib

/-!
Shallow embedding of `super_productivity_cli` (`src/super_productivity_cli/client.py`).

The program mutates one JSON document held in a remote file store.  We model the
document as a typed structure containing exactly the fields the client reads or
writes, JSON dictionaries as insertion-ordered association lists, and Python
exceptions (`KeyError` from dict subscripting / `dict.pop`, `ValueError` from
`int(...)` and `list.remove`) through an `Except` monad.  Each method of the
`SupProd` class becomes a function of the downloaded document (the `contents`
property re-downloads on every access; within one call, with no concurrent
writer, every download yields the same value, so a single `Document` argument
is passed).  The wall clock (`time.time()`) is passed in as a parameter.
Functions that end by calling `update_contents` return the document that gets
uploaded; a `none` result means the method returned without uploading anything.
-/

namespace SP

/-- Python exceptions that the modelled code can raise.  `nonTermination` is
the out-of-fuel marker of loop models; it is proved unreachable for the fuel
supplied. -/
inductive PyError where
  | keyError (key : String)
  | valueError (msg : String)
  | nonTermination
deriving DecidableEq, Repr

deriving instance DecidableEq for Except

/-- Python `str.lower()` on the ASCII fragment (both the stored titles and the
queries of interest are ASCII, where CPython and this model agree), written so
that it reduces structurally. -/
def pyLower (s : String) : String := ⟨s.data.map Char.toLower⟩

/-- Python `str.strip()` (no arguments): the string with surrounding
whitespace removed, on the ASCII-whitespace fragment where CPython and
`Char.isWhitespace` agree; written so that it reduces structurally. -/
def pyStrip (s : String) : String :=
  ⟨((s.data.dropWhile Char.isWhitespace).reverse.dropWhile Char.isWhitespace).reverse⟩

/-- Lookup in a Python dict modelled as an insertion-ordered association list:
`d[k]` returning `none` where Python raises `KeyError`. -/
def dictGet {α : Type} : List (String × α) → String → Option α
  | [], _ => none
  | p :: rest, k => if p.1 == k then some p.2 else dictGet rest k

/-- Python dict assignment `d[k] = v`: replaces the value at an existing key in
place, otherwise appends the new binding (insertion order semantics). -/
def dictSet {α : Type} : List (String × α) → String → α → List (String × α)
  | [], k, v => [(k, v)]
  | p :: rest, k, v => if p.1 == k then (k, v) :: rest else p :: dictSet rest k v

/-- Python `d.pop(k)` (result value discarded by the caller): removes the key,
`none` where Python raises `KeyError`. -/
def dictPop {α : Type} : List (String × α) → String → Option (List (String × α))
  | [], _ => none
  | p :: rest, k =>
    if p.1 == k then some rest else (dictPop rest k).map (fun r => p :: r)

/-- Python `lst.remove(x)`: removes the first occurrence, `none` where Python
raises `ValueError` (element absent). -/
def pyRemove : List String → String → Option (List String)
  | [], _ => none
  | y :: rest, x => if y == x then some rest else (pyRemove rest x).map (fun r => y :: r)

/-- Python truthiness-based `a or b` on `Optional[str]` values (`None` and the
empty string are falsy). -/
def pyOrStr (a : Option String) (b : Option String) : Option String :=
  match a with
  | none => b
  | some s => if s = "" then b else some s

/-- Whether CPython `int(s)` succeeds.  Modelled on the ASCII fragment:
optional surrounding whitespace, an optional sign, then a nonempty digit run
(underscore digit grouping and non-ASCII digits are outside the modelled
fragment; the ids this program manipulates are plain digit strings or
non-numeric host-application ids, on which the fragments agree). -/
def int_parses (s : String) : Bool :=
  let t := (pyStrip s).data
  let t := match t with
    | c :: rest => if c = '+' || c = '-' then rest else c :: rest
    | [] => []
  !t.isEmpty && t.all Char.isDigit

/-- Storage (JSON) form of one attachment record, as built by
`Attachment.attachment` and consumed by `Attachment.from_attachment`. -/
structure AttachmentRecord where
  type : String
  path : String
  title : String
  id : String
deriving DecidableEq, Repr

/-- The `Attachment` dataclass: `path`, `title`, `attachment_type`. -/
structure Attachment where
  path : String
  title : String
  attachment_type : String
deriving DecidableEq, Repr

/-- `Attachment.from_attachment`: reads `path`, `title`, `type` from the
storage dict (the stored `id` is dropped). -/
def Attachment.from_attachment (attachment : AttachmentRecord) : Attachment :=
  ⟨attachment.path, attachment.title, attachment.type⟩

/-- The `attachment` property: the storage dict, whose `id` is freshly minted
from the wall clock; `now` stands for the string `str(time.time())` read at
conversion time. -/
def Attachment.attachment (a : Attachment) (now : String) : AttachmentRecord :=
  { type := a.attachment_type, path := a.path, title := a.title, id := now }

/-- One task record of the document, with the fields `create_task` writes and
the `Task` view reads.  `showSubtasksMode` models the JSON key named
"_showSubtasksMode". -/
structure TaskRec where
  title : String
  projectId : Option String
  id : String
  isDone : Bool
  subTaskIds : List String
  timeSpentOnDay : List (String × Int)
  timeSpent : Int
  timeEstimate : Int
  doneOn : Option Int
  reminderId : Option String
  notes : String
  tagIds : List String
  parentId : Option String
  plannedAt : Option Int
  showSubtasksMode : Nat
  attachments : List AttachmentRecord
  issueId : Option String
  issuePoints : Option Int
  issueType : Option String
  issueAttachmentNr : Option Int
  issueLastUpdated : Option Int
  issueWasUpdated : Option Bool
deriving DecidableEq, Repr

/-- One project record (the fields the client accesses). -/
structure ProjectRec where
  title : String
  taskIds : List String
deriving DecidableEq, Repr

/-- One tag record (the client only touches `taskIds`; the TODAY theme colors
are not needed by any modelled operation's claims). -/
structure TagRec where
  taskIds : List String
deriving DecidableEq, Repr

/-- A `{"ids": [...], "entities": {...}}` collection of the document. -/
structure EntityColl (α : Type) where
  ids : List String
  entities : List (String × α)
deriving DecidableEq, Repr

/-- The JSON document (`self.contents`), restricted to the parts the client
reads or writes.  `globalConfigMiscDefaultProjectId` models the lookup path
`contents["globalConfig"]["misc"]["defaultProjectId"]`: the outer `none` means
some key on that path is missing (Python raises `KeyError`), `some none` means
the stored value is JSON null, `some (some s)` a stored string. -/
structure Document where
  task : EntityColl TaskRec
  project : EntityColl ProjectRec
  tag : EntityColl TagRec
  globalConfigMiscDefaultProjectId : Option (Option String)
  lastLocalSyncModelChange : Int
deriving DecidableEq, Repr

/-- `update_contents`: stamps `lastLocalSyncModelChange` with the current
epoch-millis time and uploads; the returned document is the uploaded one. -/
def update_contents (contents : Document) (nowMillis : Int) : Document :=
  { contents with lastLocalSyncModelChange := nowMillis }

/-- The `while True` loop body of `new_task_id`, with explicit fuel: at each
step, if `str(i)` is in the id collection the counter is incremented, else
`i` is returned.  `none` models fuel exhaustion (proved unreachable for the
fuel `new_task_id` supplies). -/
def new_task_id_loop (contents : List String) : Nat → Nat → Option Nat
  | _, 0 => none
  | i, fuel + 1 =>
    if toString i ∈ contents then new_task_id_loop contents (i + 1) fuel else some i

/-- `new_task_id`: scans integers from 1 and returns the first whose string
form is absent from `contents["task"]["ids"]`. -/
def new_task_id (doc : Document) : Option String :=
  (new_task_id_loop doc.task.ids 1 (doc.task.ids.length + 1)).map (fun i => toString i)

/-- Shared worker for the `all_tasks` / `projects` list comprehensions:
`[(x, entities[x]) for x in ids]`, raising `KeyError` on a missing entity. -/
def entityList {α : Type} (entities : List (String × α)) :
    List String → Except PyError (List (String × α))
  | [] => Except.ok []
  | x :: rest =>
    match dictGet entities x with
    | none => Except.error (PyError.keyError x)
    | some e =>
      match entityList entities rest with
      | Except.error err => Except.error err
      | Except.ok es => Except.ok ((x, e) :: es)

/-- `all_tasks`: one `Task` view per id, in stored order (the view keeps only
the details dict, so it is the record itself). -/
def all_tasks (doc : Document) : Except PyError (List TaskRec) :=
  match entityList doc.task.entities doc.task.ids with
  | Except.error e => Except.error e
  | Except.ok l => Except.ok (l.map (fun p => p.2))

/-- The `Task.title` property: the stored title stripped of surrounding
whitespace (`str.strip()`). -/
def Task.title (t : TaskRec) : String := pyStrip t.title

/-- The `Task.done` property. -/
def Task.done (t : TaskRec) : Bool := t.isDone

/-- The `Task.done_at` property: `doneOn / 1000.0` when `doneOn` is not null,
else `0`.  Python's float division is modelled exactly in `ℚ` (epoch-millis
magnitudes are far below 2^53, where the float quotient of the example values
is exact). -/
def Task.done_at (t : TaskRec) : ℚ :=
  match t.doneOn with
  | some d => (d : ℚ) / 1000
  | none => 0

/-- The `Task.project_id` property. -/
def Task.project_id (t : TaskRec) : Option String := t.projectId

/-- The `Task.tags` property. -/
def Task.tags (t : TaskRec) : List String := t.tagIds

/-- `tasks`: the not-done tasks, in stored order. -/
def tasks (doc : Document) : Except PyError (List TaskRec) :=
  match all_tasks doc with
  | Except.error e => Except.error e
  | Except.ok ts => Except.ok (ts.filter (fun x => !(Task.done x)))

/-- `default_project_id`: `contents["globalConfig"]["misc"]["defaultProjectId"]
or None`, with `KeyError` caught and turned into `None`; a stored null or
empty string is falsy and also yields `None`. -/
def default_project_id (doc : Document) : Option String :=
  match doc.globalConfigMiscDefaultProjectId with
  | none => none
  | some none => none
  | some (some s) => if s = "" then none else some s

/-- `get_task_by_title`: first not-done task whose (stripped) title equals
`title`, else `None`. -/
def get_task_by_title (doc : Document) (title : String) :
    Except PyError (Option TaskRec) :=
  match tasks doc with
  | Except.error e => Except.error e
  | Except.ok ts =>
    match ts.filter (fun x => Task.title x == title) with
    | [] => Except.ok none
    | c :: _ => Except.ok (some c)

/-- The today-tagging step of `create_task` (source lines 135-137): appends
`"TODAY"` to the new task's `tagIds` and the new id to the `TODAY` tag's
`taskIds`, raising `KeyError` where a dict subscript fails. -/
def applyToday (c : Document) (task_id : String) : Except PyError Document :=
  match dictGet c.task.entities task_id with
  | none => Except.error (PyError.keyError task_id)
  | some t =>
    let taskEnts := dictSet c.task.entities task_id ({ t with tagIds := t.tagIds ++ ["TODAY"] })
    let c := { c with task := { c.task with entities := taskEnts } }
    match dictGet c.tag.entities "TODAY" with
    | none => Except.error (PyError.keyError "TODAY")
    | some td =>
      let tagEnts := dictSet c.tag.entities "TODAY" ({ td with taskIds := td.taskIds ++ [task_id] })
      Except.ok { c with tag := { c.tag with entities := tagEnts } }

/-- The full task record `create_task` builds (source lines 107-130). -/
def newTaskRec (task_title : String) (project_id : Option String) (task_id : String)
    (time_estimate : Int) (urls : List Attachment) (attachNow : String) : TaskRec :=
  { title := task_title
    projectId := project_id
    id := task_id
    isDone := false
    subTaskIds := []
    timeSpentOnDay := []
    timeSpent := 0
    timeEstimate := time_estimate
    doneOn := none
    reminderId := none
    notes := ""
    tagIds := []
    parentId := none
    plannedAt := none
    showSubtasksMode := 2
    attachments := urls.map (fun x => Attachment.attachment x attachNow)
    issueId := none
    issuePoints := none
    issueType := none
    issueAttachmentNr := none
    issueLastUpdated := none
    issueWasUpdated := none }

/-- The tail of `create_task` after the new id has been allocated (source
lines 105-138): append the id, insert the full task record, register the id
with the owning project (when one is resolved), apply the TODAY tagging when
`is_today` holds or no project was resolved, then upload via
`update_contents`. -/
def create_task_insert (doc : Document) (nowMillis : Int) (attachNow : String)
    (task_title : String) (project_id : Option String) (is_today : Bool)
    (time_estimate : Int) (urls : List Attachment) (task_id : String) :
    Except PyError (Option Document) :=
  let newTask : TaskRec := newTaskRec task_title project_id task_id time_estimate urls attachNow
  let newTaskColl : EntityColl TaskRec :=
    { ids := doc.task.ids ++ [task_id], entities := dictSet doc.task.entities task_id newTask }
  let c := { doc with task := newTaskColl }
  let afterProject : Except PyError Document :=
    match project_id with
    | none => Except.ok c
    | some pid =>
      match dictGet c.project.entities pid with
      | none => Except.error (PyError.keyError pid)
      | some projRec =>
        let projEnts :=
          dictSet c.project.entities pid ({ projRec with taskIds := projRec.taskIds ++ [task_id] })
        Except.ok { c with project := { c.project with entities := projEnts } }
  match afterProject with
  | Except.error e => Except.error e
  | Except.ok c2 =>
    let afterToday : Except PyError Document :=
      if is_today || project_id.isNone then applyToday c2 task_id else Except.ok c2
    match afterToday with
    | Except.error e => Except.error e
    | Except.ok c3 => Except.ok (some (update_contents c3 nowMillis))

/-- `create_task`: resolves the project id (a falsy argument falls back to the
configured default), short-circuits to a silent no-op when `is_unique` holds
and a not-done task with the same (stripped) title exists, otherwise inserts
a fresh task and uploads.  `Except.ok none` means the method returned without
mutating or uploading anything; `Except.ok (some d)` means `d` was uploaded. -/
def create_task (doc : Document) (nowMillis : Int) (attachNow : String)
    (task_title : String) (project_id : Option String) (is_today : Bool)
    (is_unique : Bool) (time_estimate : Int) (attachments : List Attachment) :
    Except PyError (Option Document) :=
  let project_id := pyOrStr project_id (default_project_id doc)
  let urls := attachments
  match (if is_unique then get_task_by_title doc task_title else Except.ok none) with
  | Except.error e => Except.error e
  | Except.ok found =>
    if is_unique && found.isSome then
      Except.ok none
    else
      match new_task_id doc with
      | none => Except.error PyError.nonTermination
      | some task_id =>
        create_task_insert doc nowMillis attachNow task_title project_id is_today
          time_estimate urls task_id

/-- One iteration body of the `cleanup_manual` loop (source lines 148-155),
acting on the current document state `c` with loop variable `x`.  The
operations run in source order: `int(x)` (raising `ValueError` on a
non-numeric id — the `except AttributeError:` clause does not catch it),
`task.entities.pop(x)`, `task.ids.remove(x)`, removal from the `"DEFAULT"`
project's `taskIds`, removal from the `"TODAY"` tag's `taskIds`. -/
def cleanup_body (c : Document) (x : String) : Except PyError Document :=
  if int_parses x then
    match dictPop c.task.entities x with
    | none => Except.error (PyError.keyError x)
    | some taskEnts =>
      match pyRemove c.task.ids x with
      | none => Except.error (PyError.valueError "list.remove(x): x not in list")
      | some taskIds =>
        match dictGet c.project.entities "DEFAULT" with
        | none => Except.error (PyError.keyError "DEFAULT")
        | some defProj =>
          match pyRemove defProj.taskIds x with
          | none => Except.error (PyError.valueError "list.remove(x): x not in list")
          | some defIds =>
            match dictGet c.tag.entities "TODAY" with
            | none => Except.error (PyError.keyError "TODAY")
            | some today =>
              match pyRemove today.taskIds x with
              | none => Except.error (PyError.valueError "list.remove(x): x not in list")
              | some todayIds =>
                let projEnts := dictSet c.project.entities "DEFAULT" ({ defProj with taskIds := defIds })
                let tagEnts := dictSet c.tag.entities "TODAY" ({ today with taskIds := todayIds })
                Except.ok
                  { c with
                    task := { ids := taskIds, entities := taskEnts }
                    project := { c.project with entities := projEnts }
                    tag := { c.tag with entities := tagEnts } }
  else
    Except.error (PyError.valueError ("invalid literal for int() with base 10: " ++ x))

/-- CPython `for x in lst:` iteration over a list that the body mutates:
index-based, reading `lst[idx]` from the current state of the list each step.
Fuel models the (finite) number of iterations; every successful body shortens
the id list by one while the index grows, so the supplied fuel is never
exhausted on runs that matter. -/
def cleanup_loop (c : Document) : Nat → Nat → Except PyError Document
  | _, 0 => Except.error PyError.nonTermination
  | idx, fuel + 1 =>
    match c.task.ids[idx]? with
    | none => Except.ok c
    | some x =>
      match cleanup_body c x with
      | Except.error e => Except.error e
      | Except.ok c2 => cleanup_loop c2 (idx + 1) fuel

/-- `cleanup_manual`: runs the removal loop over the task id list, then
uploads once; the returned document is the uploaded one.  An uncaught
exception aborts the run before the upload. -/
def cleanup_manual (c : Document) (nowMillis : Int) : Except PyError Document :=
  match cleanup_loop c 0 (c.task.ids.length + 1) with
  | Except.error e => Except.error e
  | Except.ok c2 => Except.ok (update_contents c2 nowMillis)

/-- Task record constructor for concrete test documents: a record shaped like
the ones `create_task` writes, with the claim-relevant fields exposed. -/
def mkTaskRec (id title : String) (isDone : Bool) (doneOn : Option Int)
    (projectId : Option String) (tagIds : List String) : TaskRec :=
  { title := title, projectId := projectId, id := id, isDone := isDone,
    subTaskIds := [], timeSpentOnDay := [], timeSpent := 0, timeEstimate := 0,
    doneOn := doneOn, reminderId := none, notes := "", tagIds := tagIds,
    parentId := none, plannedAt := none, showSubtasksMode := 2, attachments := [],
    issueId := none, issuePoints := none, issueType := none,
    issueAttachmentNr := none, issueLastUpdated := none, issueWasUpdated := none }

/-- A document with the given task ids and no further content; `new_task_id`
reads only the id list. -/
def docWithTaskIds (ids : List String) : Document :=
  { task := ⟨ids, []⟩, project := ⟨[], []⟩, tag := ⟨[], []⟩,
    globalConfigMiscDefaultProjectId := none, lastLocalSyncModelChange := 0 }

/-- The `Project` view: the id and the details dict. -/
structure Project where
  project_id : String
  details : ProjectRec
deriving DecidableEq, Repr

/-- The `Project.title` property. -/
def Project.title (p : Project) : String := p.details.title

/-- `projects`: one `Project` view per id of the project collection, in
stored order. -/
def projects (doc : Document) : Except PyError (List Project) :=
  match entityList doc.project.entities doc.project.ids with
  | Except.error e => Except.error e
  | Except.ok l => Except.ok (l.map (fun p => Project.mk p.1 p.2))

/-- `get_project_by_name`: linear scan; when `case_insensitive` (the default)
both the query and each title are lowercased before comparison; raises
`ValueError` — the spec's NotFoundError — when no project matches. -/
def get_project_by_name (doc : Document) (name : String)
    (case_insensitive : Bool) : Except PyError Project :=
  let name := if case_insensitive then pyLower name else name
  match projects doc with
  | Except.error e => Except.error e
  | Except.ok ps =>
    match ps.find?
        (fun x => (if case_insensitive then pyLower (Project.title x)
                   else Project.title x) == name) with
    | some p => Except.ok p
    | none =>
      Except.error (PyError.valueError ("Project with name " ++ name ++ " not found."))

/-! Concrete documents used by claim theorems, counterexamples and
witnesses. -/

/-- Two not-done tasks with consecutive numeric ids "1", "2", both registered
in the DEFAULT project's and the TODAY tag's `taskIds`. -/
def docTwoNumeric : Document :=
  { task := ⟨["1", "2"], [("1", mkTaskRec "1" "a" false none none []),
                          ("2", mkTaskRec "2" "b" false none none [])]⟩,
    project := ⟨["DEFAULT"], [("DEFAULT", ⟨"Default", ["1", "2"]⟩)]⟩,
    tag := ⟨["TODAY"], [("TODAY", ⟨["1", "2"]⟩)]⟩,
    globalConfigMiscDefaultProjectId := none,
    lastLocalSyncModelChange := 0 }

/-- One task whose id "x0" does not parse as an integer. -/
def docNonNumeric : Document :=
  { task := ⟨["x0"], [("x0", mkTaskRec "x0" "a" false none none [])]⟩,
    project := ⟨["DEFAULT"], [("DEFAULT", ⟨"Default", ["x0"]⟩)]⟩,
    tag := ⟨["TODAY"], [("TODAY", ⟨["x0"]⟩)]⟩,
    globalConfigMiscDefaultProjectId := none,
    lastLocalSyncModelChange := 0 }

/-- A document whose only project "W" is titled "Work". -/
def docOneProject : Document :=
  { task := ⟨[], []⟩, project := ⟨["W"], [("W", ⟨"Work", []⟩)]⟩, tag := ⟨[], []⟩,
    globalConfigMiscDefaultProjectId := none, lastLocalSyncModelChange := 0 }

/-- A not-done task whose stored title " a " carries surrounding whitespace
(the document also holds the TODAY tag that `create_task` touches). -/
def docPaddedTitle : Document :=
  { task := ⟨["x0"], [("x0", mkTaskRec "x0" " a " false none none [])]⟩,
    project := ⟨[], []⟩,
    tag := ⟨["TODAY"], [("TODAY", ⟨[]⟩)]⟩,
    globalConfigMiscDefaultProjectId := none,
    lastLocalSyncModelChange := 0 }

/-- A document whose configured default project is "P1", with the P1 project
and the TODAY tag present and empty. -/
def docP1 : Document :=
  { task := ⟨[], []⟩,
    project := ⟨["P1"], [("P1", ⟨"Proj", []⟩)]⟩,
    tag := ⟨["TODAY"], [("TODAY", ⟨[]⟩)]⟩,
    globalConfigMiscDefaultProjectId := some (some "P1"),
    lastLocalSyncModelChange := 0 }

/-- A document with no configured default project (the key path is missing),
with the TODAY tag present and empty. -/
def docNoDefault : Document :=
  { task := ⟨[], []⟩,
    project := ⟨[], []⟩,
    tag := ⟨["TODAY"], [("TODAY", ⟨[]⟩)]⟩,
    globalConfigMiscDefaultProjectId := none,
    lastLocalSyncModelChange := 0 }

/-! Auxiliary lemmas about the dict model. -/

theorem dictGet_dictSet_self {α : Type} (d : List (String × α)) (k : String) (v : α) :
    dictGet (dictSet d k v) k = some v := by
  induction d with
  | nil => simp [dictGet, dictSet]
  | cons p rest ih =>
    by_cases h : p.1 = k
    · simp [dictGet, dictSet, h]
    · simp only [dictSet, dictGet, beq_iff_eq, h, if_false]
      exact ih

theorem dictGet_dictSet_ne {α : Type} (d : List (String × α)) (k k' : String) (v : α)
    (h : k' ≠ k) : dictGet (dictSet d k v) k' = dictGet d k' := by
  have h2 : k ≠ k' := fun hh => h hh.symm
  induction d with
  | nil => simp [dictGet, dictSet, h2]
  | cons p rest ih =>
    by_cases hp : p.1 = k
    · simp [dictGet, dictSet, hp, h2]
    · by_cases hp' : p.1 = k'
      · simp [dictGet, dictSet, hp, hp', h]
      · simp only [dictSet, dictGet, beq_iff_eq, hp, hp', if_false]
        exact ih

/-! Decimal representation of naturals: `toString`/`Nat.repr` is injective on
positive numbers.  This underpins the termination and minimality facts about
the `new_task_id` scanning loop. -/

theorem toString_nat_eq_repr (n : Nat) : toString n = Nat.repr n := rfl

theorem digitChar_inj_lt : ∀ a < 10, ∀ b < 10, Nat.digitChar a = Nat.digitChar b → a = b := by
  decide

theorem map_digitChar_inj :
    ∀ (l1 l2 : List Nat), (∀ x ∈ l1, x < 10) → (∀ x ∈ l2, x < 10) →
      l1.map Nat.digitChar = l2.map Nat.digitChar → l1 = l2 := by
  intro l1
  induction l1 with
  | nil => intro l2 _ _ h; cases l2 <;> simp_all
  | cons a t ih =>
    intro l2 h1 h2 h
    cases l2 with
    | nil => simp at h
    | cons b t2 =>
      simp only [List.map_cons, List.cons.injEq] at h
      have ha : a = b :=
        digitChar_inj_lt a (h1 a (by simp)) b (h2 b (by simp)) h.1
      have ht : t = t2 :=
        ih t2 (fun x hx => h1 x (by simp [hx])) (fun x hx => h2 x (by simp [hx])) h.2
      rw [ha, ht]

theorem toDigitsCore_eq_digits :
    ∀ (n : Nat), 0 < n → ∀ (f : Nat), n < f → ∀ (ds : List Char),
      Nat.toDigitsCore 10 f n ds = ((Nat.digits 10 n).map Nat.digitChar).reverse ++ ds := by
  intro n
  induction n using Nat.strong_induction_on with
  | _ n ih =>
    intro hn f hf ds
    match f with
    | 0 => omega
    | f + 1 =>
      rw [Nat.digits_def' (by norm_num : (1:Nat) < 10) hn]
      simp only [Nat.toDigitsCore, List.map_cons, List.reverse_cons]
      by_cases h0 : n / 10 = 0
      · simp [h0, Nat.digits_zero]
      · rw [if_neg h0]
        have hlt : n / 10 < n := Nat.div_lt_self hn (by norm_num)
        rw [ih (n / 10) hlt (Nat.pos_of_ne_zero h0) f (by omega) _]
        simp

theorem repr_eq_of_pos (n : Nat) (hn : 0 < n) :
    Nat.repr n = (((Nat.digits 10 n).map Nat.digitChar).reverse).asString := by
  unfold Nat.repr Nat.toDigits
  rw [toDigitsCore_eq_digits n hn (n + 1) (by omega) []]
  simp

theorem repr_inj_of_pos (m n : Nat) (hm : 0 < m) (hn : 0 < n)
    (h : Nat.repr m = Nat.repr n) : m = n := by
  rw [repr_eq_of_pos m hm, repr_eq_of_pos n hn] at h
  have h2 : ((Nat.digits 10 m).map Nat.digitChar).reverse =
      ((Nat.digits 10 n).map Nat.digitChar).reverse := congrArg String.data h
  have h3 := List.reverse_injective h2
  have h4 : Nat.digits 10 m = Nat.digits 10 n :=
    map_digitChar_inj _ _
      (fun x hx => Nat.digits_lt_base (by norm_num) hx)
      (fun x hx => Nat.digits_lt_base (by norm_num) hx) h3
  calc m = Nat.ofDigits 10 (Nat.digits 10 m) := (Nat.ofDigits_digits 10 m).symm
    _ = Nat.ofDigits 10 (Nat.digits 10 n) := by rw [h4]
    _ = n := Nat.ofDigits_digits 10 n

/-- Pigeonhole: among any `ids.length + 1` consecutive positive counters, some
string form is absent from `ids`. -/
theorem exists_free_counter (ids : List String) (i : Nat) (hi : 0 < i) :
    ∃ k, k ≤ ids.length ∧ toString (i + k) ∉ ids := by
  by_contra hcon
  push_neg at hcon
  have hall : ∀ k ≤ ids.length, toString (i + k) ∈ ids := hcon
  set L : List String := (List.range (ids.length + 1)).map (fun k => toString (i + k)) with hL
  have hnodup : L.Nodup := by
    refine List.Nodup.map_on ?_ (List.nodup_range _)
    intro x _ y _ hxy
    have := repr_inj_of_pos (i + x) (i + y) (by omega) (by omega)
      (by rw [← toString_nat_eq_repr, ← toString_nat_eq_repr]; exact hxy)
    omega
  have hsub : L ⊆ ids := by
    intro s hs
    rw [hL, List.mem_map] at hs
    obtain ⟨k, hk, rfl⟩ := hs
    exact hall k (by simpa using Nat.lt_succ_iff.mp (List.mem_range.mp hk))
  have hlen : L.length ≤ ids.length := (hnodup.subperm hsub).length_le
  simp [hL] at hlen

/-- Correctness of the scanning loop: given enough fuel to reach a free
counter, it returns the least free counter at or beyond the start value. -/
theorem new_task_id_loop_spec :
    ∀ (fuel : Nat) (ids : List String) (i : Nat),
      (∃ k, k < fuel ∧ toString (i + k) ∉ ids) →
      ∃ n, new_task_id_loop ids i fuel = some n ∧ i ≤ n ∧ toString n ∉ ids ∧
        ∀ m, i ≤ m → m < n → toString m ∈ ids := by
  intro fuel
  induction fuel with
  | zero => intro ids i h; obtain ⟨k, hk, _⟩ := h; omega
  | succ fuel ih =>
    intro ids i h
    by_cases hmem : toString i ∈ ids
    · obtain ⟨k, hk, hfree⟩ := h
      have hk0 : k ≠ 0 := by rintro rfl; simp at hfree; exact hfree hmem
      obtain ⟨n, hloop, hge, hfr, hleast⟩ := ih ids (i + 1)
        ⟨k - 1, by omega, by rw [show i + 1 + (k - 1) = i + k by omega]; exact hfree⟩
      refine ⟨n, ?_, by omega, hfr, ?_⟩
      · simp only [new_task_id_loop, if_pos hmem]
        exact hloop
      · intro m hm1 hm2
        rcases Nat.eq_or_lt_of_le hm1 with rfl | hlt
        · exact hmem
        · exact hleast m hlt hm2
    · exact ⟨i, by simp only [new_task_id_loop, if_neg hmem], le_refl i, hmem,
        fun m hm1 hm2 => absurd (lt_of_le_of_lt hm1 hm2) (lt_irrefl i)⟩

/-- `new_task_id` always succeeds and returns the string form of the least
positive counter absent from the task id list. -/
theorem new_task_id_least (doc : Document) :
    ∃ n, new_task_id doc = some (toString n) ∧ 1 ≤ n ∧
      toString n ∉ doc.task.ids ∧
      ∀ m, 1 ≤ m → m < n → toString m ∈ doc.task.ids := by
  obtain ⟨k, hk, hfree⟩ := exists_free_counter doc.task.ids 1 (by omega)
  obtain ⟨n, hloop, hge, hfr, hleast⟩ :=
    new_task_id_loop_spec (doc.task.ids.length + 1) doc.task.ids 1 ⟨k, by omega, hfree⟩
  exact ⟨n, by simp [new_task_id, hloop], hge, hfr, hleast⟩

/-- C1 (code bug): `cleanup_manual` on `docTwoNumeric` removes only task "1"
and uploads a document that still contains task "2", although "2" parses as
an integer — the `for` loop iterates over the very list it shrinks with
`remove`, so the element after each removed one is skipped.  And on a document
with the non-numeric id "x0", instead of leaving the task in place, the run
raises `ValueError` from `int("x0")` (the `except AttributeError:` clause
cannot catch it), so nothing is written back. -/
theorem claim_C1_cleanup_manual_failing :
    (cleanup_manual docTwoNumeric 0).map (fun d => d.task.ids) = Except.ok ["2"] ∧
    (cleanup_manual docTwoNumeric 0).map
      (fun d => (dictGet d.task.entities "2").isSome) = Except.ok true ∧
    (cleanup_manual docTwoNumeric 0).map
      (fun d => (dictGet d.project.entities "DEFAULT").map ProjectRec.taskIds) =
      Except.ok (some ["2"]) ∧
    (cleanup_manual docTwoNumeric 0).map
      (fun d => (dictGet d.tag.entities "TODAY").map TagRec.taskIds) =
      Except.ok (some ["2"]) ∧
    int_parses "2" = true ∧ "2" ∈ docTwoNumeric.task.ids ∧
    cleanup_manual docNonNumeric 0 =
      Except.error (PyError.valueError "invalid literal for int() with base 10: x0") := by
  decide

/-- C4: `new_task_id` returns the string form of the smallest positive
counter whose string form is absent from the task id collection (`some`
reflects that the `while True` loop model carries fuel; it always suffices);
in particular "3" for ids ["1","2","4"] and "1" for the empty collection. -/
theorem claim_C4_new_task_id_smallest :
    (∀ doc : Document, ∃ n, new_task_id doc = some (toString n) ∧ 1 ≤ n ∧
        toString n ∉ doc.task.ids ∧ ∀ m, 1 ≤ m → m < n → toString m ∈ doc.task.ids) ∧
    new_task_id (docWithTaskIds ["1", "2", "4"]) = some "3" ∧
    new_task_id (docWithTaskIds []) = some "1" := by
  refine ⟨fun doc => new_task_id_least doc, by decide, by decide⟩

/-- Witness for C4 at a concrete collection. -/
theorem claim_C4_witness :
    ∃ n, new_task_id (docWithTaskIds ["9"]) = some (toString n) ∧ 1 ≤ n ∧
      toString n ∉ (docWithTaskIds ["9"]).task.ids ∧
      ∀ m, 1 ≤ m → m < n → toString m ∈ (docWithTaskIds ["9"]).task.ids :=
  claim_C4_new_task_id_smallest.1 (docWithTaskIds ["9"])

/-- C10: the scanning loop of `new_task_id` terminates on every finite id
collection — with the supplied fuel it returns a value rather than running
out, since the counter is only incremented while its string form occurs in
the finite collection. -/
theorem claim_C10_new_task_id_terminates :
    ∀ doc : Document,
      ∃ n, new_task_id_loop doc.task.ids 1 (doc.task.ids.length + 1) = some n ∧
        new_task_id doc = some (toString n) := by
  intro doc
  obtain ⟨k, hk, hfree⟩ := exists_free_counter doc.task.ids 1 (by omega)
  obtain ⟨n, hloop, _, _, _⟩ :=
    new_task_id_loop_spec (doc.task.ids.length + 1) doc.task.ids 1 ⟨k, by omega, hfree⟩
  exact ⟨n, hloop, by simp [new_task_id, hloop]⟩

/-- C6: `update_contents` stamps `lastLocalSyncModelChange` with the given
current epoch-millis time and uploads every other part of the document
unchanged. -/
theorem claim_C6_update_contents_frame :
    ∀ (doc : Document) (nowMillis : Int),
      (update_contents doc nowMillis).lastLocalSyncModelChange = nowMillis ∧
      (update_contents doc nowMillis).task = doc.task ∧
      (update_contents doc nowMillis).project = doc.project ∧
      (update_contents doc nowMillis).tag = doc.tag ∧
      (update_contents doc nowMillis).globalConfigMiscDefaultProjectId =
        doc.globalConfigMiscDefaultProjectId :=
  fun _ _ => ⟨rfl, rfl, rfl, rfl, rfl⟩

/-- C7: `done_at` is 0 when `doneOn` is null and the stored epoch-millis
value divided by 1000 otherwise; `doneOn = 1700000000000` gives
1700000000. -/
theorem claim_C7_done_at :
    (∀ t : TaskRec, t.doneOn = none → Task.done_at t = 0) ∧
    (∀ (t : TaskRec) (m : Int), t.doneOn = some m → Task.done_at t = (m : ℚ) / 1000) ∧
    Task.done_at (mkTaskRec "1" "t" true (some 1700000000000) none []) = 1700000000 := by
  refine ⟨?_, ?_, ?_⟩
  · intro t h; simp [Task.done_at, h]
  · intro t m h; simp [Task.done_at, h]
  · norm_num [Task.done_at, mkTaskRec]

/-- Witness for C7 at concrete task records. -/
theorem claim_C7_witness :
    Task.done_at (mkTaskRec "1" "t" false none none []) = 0 ∧
    Task.done_at (mkTaskRec "1" "t" true (some 5000) none []) = (5000 : ℚ) / 1000 :=
  ⟨claim_C7_done_at.1 _ rfl, claim_C7_done_at.2.1 _ 5000 rfl⟩

/-- C8: converting a storage attachment record to an `Attachment` and back
preserves `type`, `path` and `title` exactly; only `id` differs, being
freshly minted from the wall clock on every conversion to storage form. -/
theorem claim_C8_attachment_roundtrip :
    ∀ (rec : AttachmentRecord) (now : String),
      Attachment.attachment (Attachment.from_attachment rec) now = { rec with id := now } ∧
      (Attachment.attachment (Attachment.from_attachment rec) now).id = now :=
  fun _ _ => ⟨rfl, rfl⟩

/-- C3: `get_project_by_name` with the default case-insensitive mode returns
the project titled "Work" for the query "work", and raises the not-found
error (`ValueError`, the spec's NotFoundError) when no project's title
matches the query. -/
theorem claim_C3_get_project_by_name :
    get_project_by_name docOneProject "work" true = Except.ok ⟨"W", ⟨"Work", []⟩⟩ ∧
    (∀ (doc : Document) (name : String) (ps : List Project),
      projects doc = Except.ok ps →
      (∀ p ∈ ps, pyLower (Project.title p) ≠ pyLower name) →
      get_project_by_name doc name true =
        Except.error
          (PyError.valueError ("Project with name " ++ pyLower name ++ " not found."))) := by
  constructor
  · decide
  · intro doc name ps hps hnone
    have hfind : ps.find? (fun x => pyLower (Project.title x) == pyLower name) = none :=
      List.find?_eq_none.mpr (fun x hx => by simpa using hnone x hx)
    simp [get_project_by_name, hps, hfind]

/-- Witness for C3: the query "nonexistent" on the one-project document. -/
theorem claim_C3_witness :
    get_project_by_name docOneProject "nonexistent" true =
      Except.error
        (PyError.valueError ("Project with name " ++ pyLower "nonexistent" ++ " not found.")) :=
  claim_C3_get_project_by_name.2 docOneProject "nonexistent" [⟨"W", ⟨"Work", []⟩⟩]
    (by decide) (by decide)

/-- C2 counterexample: `docPaddedTitle` holds a not-done task whose title is
exactly " a " (case-sensitive, exact string match), yet
`create_task(" a ", is_unique=True)` is not a no-op — the uniqueness scan
compares the given title against the STRIPPED stored title "a", finds no
match, and creates and uploads a new task. -/
theorem claim_C2_counterexample :
    (dictGet docPaddedTitle.task.entities "x0").map TaskRec.title = some " a " ∧
    (dictGet docPaddedTitle.task.entities "x0").map TaskRec.isDone = some false ∧
    "x0" ∈ docPaddedTitle.task.ids ∧
    create_task docPaddedTitle 99 "clk" " a " none true true 0 [] ≠ Except.ok none := by
  decide

/-- C2 (amended): if `is_unique` and some not-done task's title — after the
stored title is stripped of surrounding whitespace, as the `Task.title` view
does — equals the given title, `create_task` is a silent no-op: it returns
(modelled `Except.ok none`) without inserting a task and without calling
`update_contents`. -/
theorem claim_C2_unique_silent_noop :
    ∀ (doc : Document) (ts : List TaskRec) (t : TaskRec) (title : String)
      (nowMillis : Int) (attachNow : String) (pidArg : Option String)
      (is_today : Bool) (te : Int) (atts : List Attachment),
      tasks doc = Except.ok ts → t ∈ ts → Task.title t = title →
      create_task doc nowMillis attachNow title pidArg is_today true te atts =
        Except.ok none := by
  intro doc ts t title nowMillis attachNow pidArg is_today te atts hts hmem htitle
  have hfilter : ts.filter (fun x => Task.title x == title) ≠ [] := by
    intro hnil
    rw [List.filter_eq_nil_iff] at hnil
    exact hnil t hmem (by simp [htitle])
  have hget : ∃ c, get_task_by_title doc title = Except.ok (some c) := by
    cases hc : ts.filter (fun x => Task.title x == title) with
    | nil => exact absurd hc hfilter
    | cons c rest => exact ⟨c, by simp [get_task_by_title, hts, hc]⟩
  obtain ⟨c, hget⟩ := hget
  simp [create_task, hget]

/-- Witness for C2 on a document with a not-done task titled "Buy milk". -/
theorem claim_C2_witness :
    create_task
      ({ task := ⟨["x1"], [("x1", mkTaskRec "x1" "Buy milk" false none none [])]⟩,
         project := ⟨[], []⟩, tag := ⟨["TODAY"], [("TODAY", ⟨[]⟩)]⟩,
         globalConfigMiscDefaultProjectId := none,
         lastLocalSyncModelChange := 0 } : Document) 7 "clk" "Buy milk" none true true 0 [] =
      Except.ok none :=
  claim_C2_unique_silent_noop _ [mkTaskRec "x1" "Buy milk" false none none []]
    (mkTaskRec "x1" "Buy milk" false none none []) "Buy milk" 7 "clk" none true 0 []
    (by decide) (by decide) (by decide)

/-- Evaluation of `applyToday` when both dict lookups succeed. -/
theorem applyToday_run (c : Document) (task_id : String) (t : TaskRec) (td : TagRec)
    (htk : dictGet c.task.entities task_id = some t)
    (htd : dictGet c.tag.entities "TODAY" = some td) :
    applyToday c task_id = Except.ok
      { c with
        task := { c.task with entities := dictSet c.task.entities task_id ({ t with tagIds := t.tagIds ++ ["TODAY"] }) },
        tag := { c.tag with entities := dictSet c.tag.entities "TODAY" ({ td with taskIds := td.taskIds ++ [task_id] }) } } := by
  simp [applyToday, htk, htd]

/-- Evaluation of `create_task_insert`: under the dict hypotheses forced by
the source's subscripting, the run succeeds, and the uploaded document is
described observation by observation. -/
theorem create_task_insert_ok (doc : Document) (nowMillis : Int)
    (attachNow title : String) (resolved : Option String) (is_today : Bool)
    (te : Int) (urls : List Attachment) (task_id : String)
    (hp : ∀ pid, resolved = some pid → (dictGet doc.project.entities pid).isSome = true)
    (ht : (is_today || resolved.isNone) = true → (dictGet doc.tag.entities "TODAY").isSome = true) :
    ∃ d, create_task_insert doc nowMillis attachNow title resolved is_today te urls task_id = Except.ok (some d) ∧
      d.task.ids = doc.task.ids ++ [task_id] ∧
      dictGet d.task.entities task_id = some ({ newTaskRec title resolved task_id te urls attachNow with tagIds := if (is_today || resolved.isNone) = true then ["TODAY"] else [] }) ∧
      (∀ k, k ≠ task_id → dictGet d.task.entities k = dictGet doc.task.entities k) ∧
      (∀ pid projRec, resolved = some pid → dictGet doc.project.entities pid = some projRec →
        dictGet d.project.entities pid = some ({ projRec with taskIds := projRec.taskIds ++ [task_id] })) ∧
      (resolved = none → d.project = doc.project) ∧
      ((is_today || resolved.isNone) = true → ∀ td, dictGet doc.tag.entities "TODAY" = some td →
        dictGet d.tag.entities "TODAY" = some ({ td with taskIds := td.taskIds ++ [task_id] })) ∧
      ((is_today || resolved.isNone) = false → d.tag = doc.tag) ∧
      d.lastLocalSyncModelChange = nowMillis ∧
      d.project.ids = doc.project.ids ∧ d.tag.ids = doc.tag.ids := by
  cases hres : resolved with
  | none =>
    subst hres
    obtain ⟨td, htd⟩ := Option.isSome_iff_exists.mp (ht (by simp))
    refine ⟨{ doc with
        task := ⟨doc.task.ids ++ [task_id], dictSet (dictSet doc.task.entities task_id (newTaskRec title none task_id te urls attachNow)) task_id ({ newTaskRec title none task_id te urls attachNow with tagIds := (newTaskRec title none task_id te urls attachNow).tagIds ++ ["TODAY"] })⟩,
        tag := { doc.tag with entities := dictSet doc.tag.entities "TODAY" ({ td with taskIds := td.taskIds ++ [task_id] }) },
        lastLocalSyncModelChange := nowMillis }, ?_, rfl, ?_, ?_, ?_, fun _ => rfl, ?_, ?_, rfl, rfl, rfl⟩
    · simp [create_task_insert, applyToday, update_contents, dictGet_dictSet_self, htd]
    · rw [dictGet_dictSet_self]
      simp [newTaskRec]
    · intro k hk
      rw [dictGet_dictSet_ne _ _ _ _ hk, dictGet_dictSet_ne _ _ _ _ hk]
    · intro pid projRec hcontra
      exact absurd hcontra (by simp)
    · intro _ td' htd'
      rw [htd] at htd'
      cases htd'
      exact dictGet_dictSet_self _ _ _
    · intro hcontra
      simp at hcontra
  | some pid =>
    subst hres
    obtain ⟨projRec, hpr⟩ := Option.isSome_iff_exists.mp (hp pid rfl)
    cases his : is_today with
    | false =>
      subst his
      refine ⟨{ doc with
          task := ⟨doc.task.ids ++ [task_id], dictSet doc.task.entities task_id (newTaskRec title (some pid) task_id te urls attachNow)⟩,
          project := { doc.project with entities := dictSet doc.project.entities pid ({ projRec with taskIds := projRec.taskIds ++ [task_id] }) },
          lastLocalSyncModelChange := nowMillis }, ?_, rfl, ?_, ?_, ?_, ?_, ?_, fun _ => rfl, rfl, rfl, rfl⟩
      · simp [create_task_insert, update_contents, hpr]
      · rw [dictGet_dictSet_self]
        simp [newTaskRec]
      · intro k hk
        rw [dictGet_dictSet_ne _ _ _ _ hk]
      · intro pid' projRec' hpid hpr'
        cases hpid
        rw [hpr] at hpr'
        cases hpr'
        exact dictGet_dictSet_self _ _ _
      · intro hcontra
        exact absurd hcontra (by simp)
      · intro hcontra
        simp at hcontra
    | true =>
      subst his
      obtain ⟨td, htd⟩ := Option.isSome_iff_exists.mp (ht (by simp))
      refine ⟨{ doc with
          task := ⟨doc.task.ids ++ [task_id], dictSet (dictSet doc.task.entities task_id (newTaskRec title (some pid) task_id te urls attachNow)) task_id ({ newTaskRec title (some pid) task_id te urls attachNow with tagIds := (newTaskRec title (some pid) task_id te urls attachNow).tagIds ++ ["TODAY"] })⟩,
          project := { doc.project with entities := dictSet doc.project.entities pid ({ projRec with taskIds := projRec.taskIds ++ [task_id] }) },
          tag := { doc.tag with entities := dictSet doc.tag.entities "TODAY" ({ td with taskIds := td.taskIds ++ [task_id] }) },
          lastLocalSyncModelChange := nowMillis }, ?_, rfl, ?_, ?_, ?_, ?_, ?_, ?_, rfl, rfl, rfl⟩
      · simp [create_task_insert, applyToday, update_contents, dictGet_dictSet_self, hpr, htd]
      · rw [dictGet_dictSet_self]
        simp [newTaskRec]
      · intro k hk
        rw [dictGet_dictSet_ne _ _ _ _ hk, dictGet_dictSet_ne _ _ _ _ hk]
      · intro pid' projRec' hpid hpr'
        cases hpid
        rw [hpr] at hpr'
        cases hpr'
        exact dictGet_dictSet_self _ _ _
      · intro hcontra
        exact absurd hcontra (by simp)
      · intro _ td' htd'
        rw [htd] at htd'
        cases htd'
        exact dictGet_dictSet_self _ _ _
      · intro hcontra
        simp at hcontra

/-- Evaluation of a non-unique `create_task` call: it allocates the least
free id and hands over to `create_task_insert` with the resolved project. -/
theorem create_task_ok (doc : Document) (nowMillis : Int) (attachNow title : String)
    (pidArg : Option String) (is_today : Bool) (te : Int) (urls : List Attachment)
    (hp : ∀ pid, pyOrStr pidArg (default_project_id doc) = some pid → (dictGet doc.project.entities pid).isSome = true)
    (ht : (is_today || (pyOrStr pidArg (default_project_id doc)).isNone) = true → (dictGet doc.tag.entities "TODAY").isSome = true) :
    ∃ d newId, create_task doc nowMillis attachNow title pidArg is_today false te urls = Except.ok (some d) ∧
      new_task_id doc = some newId ∧
      d.task.ids = doc.task.ids ++ [newId] ∧
      dictGet d.task.entities newId = some ({ newTaskRec title (pyOrStr pidArg (default_project_id doc)) newId te urls attachNow with tagIds := if (is_today || (pyOrStr pidArg (default_project_id doc)).isNone) = true then ["TODAY"] else [] }) ∧
      (∀ k, k ≠ newId → dictGet d.task.entities k = dictGet doc.task.entities k) ∧
      (∀ pid projRec, pyOrStr pidArg (default_project_id doc) = some pid → dictGet doc.project.entities pid = some projRec →
        dictGet d.project.entities pid = some ({ projRec with taskIds := projRec.taskIds ++ [newId] })) ∧
      (pyOrStr pidArg (default_project_id doc) = none → d.project = doc.project) ∧
      ((is_today || (pyOrStr pidArg (default_project_id doc)).isNone) = true → ∀ td, dictGet doc.tag.entities "TODAY" = some td →
        dictGet d.tag.entities "TODAY" = some ({ td with taskIds := td.taskIds ++ [newId] })) ∧
      ((is_today || (pyOrStr pidArg (default_project_id doc)).isNone) = false → d.tag = doc.tag) ∧
      d.lastLocalSyncModelChange = nowMillis ∧
      d.project.ids = doc.project.ids ∧ d.tag.ids = doc.tag.ids := by
  obtain ⟨n, hnid, _, _, _⟩ := new_task_id_least doc
  have hstep : create_task doc nowMillis attachNow title pidArg is_today false te urls =
      create_task_insert doc nowMillis attachNow title (pyOrStr pidArg (default_project_id doc)) is_today te urls (toString n) := by
    simp [create_task, hnid]
  obtain ⟨d, hrun, hrest⟩ := create_task_insert_ok doc nowMillis attachNow title
    (pyOrStr pidArg (default_project_id doc)) is_today te urls (toString n) hp ht
  exact ⟨d, toString n, by rw [hstep]; exact hrun, hnid, hrest⟩

/-- C5: `create_task(title)` (defaults: no explicit project, `is_today=True`,
`is_unique=False`) on a document whose configured default project is "P1" and
which has no not-done task with the given title appends exactly one new task
record with `title=title`, `isDone=False`, `projectId="P1"`,
`tagIds=["TODAY"]`, appends the new id to both P1's and the TODAY tag's
`taskIds`, and — in general — the TODAY tagging (on the task's `tagIds` and
the tag's `taskIds` alike) happens exactly when `is_today` is true or no
project was resolved. -/
theorem claim_C5_create_task_shape :
    (∀ (doc : Document) (p1 : ProjectRec) (td : TagRec) (title : String)
        (nowMillis : Int) (attachNow : String),
      default_project_id doc = some "P1" →
      dictGet doc.project.entities "P1" = some p1 →
      dictGet doc.tag.entities "TODAY" = some td →
      get_task_by_title doc title = Except.ok none →
      ∃ d newId,
        create_task doc nowMillis attachNow title none true false 0 [] = Except.ok (some d) ∧
        new_task_id doc = some newId ∧
        d.task.ids = doc.task.ids ++ [newId] ∧
        (∃ r, dictGet d.task.entities newId = some r ∧ r.title = title ∧
          r.isDone = false ∧ r.projectId = some "P1" ∧ r.tagIds = ["TODAY"]) ∧
        (∀ k, k ≠ newId → dictGet d.task.entities k = dictGet doc.task.entities k) ∧
        dictGet d.project.entities "P1" = some ({ p1 with taskIds := p1.taskIds ++ [newId] }) ∧
        dictGet d.tag.entities "TODAY" = some ({ td with taskIds := td.taskIds ++ [newId] })) ∧
    (∀ (doc : Document) (pidArg : Option String) (is_today : Bool) (title : String)
        (nowMillis te : Int) (attachNow : String),
      (∀ pid, pyOrStr pidArg (default_project_id doc) = some pid →
        (dictGet doc.project.entities pid).isSome = true) →
      ((is_today || (pyOrStr pidArg (default_project_id doc)).isNone) = true →
        (dictGet doc.tag.entities "TODAY").isSome = true) →
      ∃ d newId r,
        create_task doc nowMillis attachNow title pidArg is_today false te [] = Except.ok (some d) ∧
        new_task_id doc = some newId ∧
        dictGet d.task.entities newId = some r ∧
        r.tagIds = (if (is_today || (pyOrStr pidArg (default_project_id doc)).isNone) = true then ["TODAY"] else []) ∧
        ((is_today || (pyOrStr pidArg (default_project_id doc)).isNone) = true →
          ∀ td, dictGet doc.tag.entities "TODAY" = some td →
            dictGet d.tag.entities "TODAY" = some ({ td with taskIds := td.taskIds ++ [newId] })) ∧
        ((is_today || (pyOrStr pidArg (default_project_id doc)).isNone) = false → d.tag = doc.tag)) := by
  constructor
  · intro doc p1 td title nowMillis attachNow hdef hp1 htd _
    have hres : pyOrStr none (default_project_id doc) = default_project_id doc := rfl
    obtain ⟨d, newId, heq, hnid, hids, hrec, hother, hproj, _, htagT, _, _, _, _⟩ :=
      create_task_ok doc nowMillis attachNow title none true 0 []
        (fun pid h => by rw [hres, hdef] at h; cases h; simp [hp1])
        (fun _ => by simp [htd])
    rw [hres, hdef] at hrec
    simp only [Option.isNone_some, Bool.true_or, if_pos rfl] at hrec
    refine ⟨d, newId, heq, hnid, hids, ⟨_, hrec, by simp [newTaskRec], by simp [newTaskRec],
      by simp [newTaskRec], by simp [newTaskRec]⟩, hother, ?_, ?_⟩
    · exact hproj "P1" p1 (by rw [hres, hdef]) hp1
    · exact htagT (by simp) td htd
  · intro doc pidArg is_today title nowMillis te attachNow hp ht
    obtain ⟨d, newId, heq, hnid, _, hrec, _, _, _, htagT, htagF, _, _, _⟩ :=
      create_task_ok doc nowMillis attachNow title pidArg is_today te [] hp ht
    exact ⟨d, newId, _, heq, hnid, hrec, by simp, htagT, htagF⟩

/-- Witness for C5: "Buy milk" on the P1-default document. -/
theorem claim_C5_witness :
    ∃ d newId,
      create_task docP1 5 "clk" "Buy milk" none true false 0 [] = Except.ok (some d) ∧
      new_task_id docP1 = some newId ∧
      d.task.ids = docP1.task.ids ++ [newId] ∧
      (∃ r, dictGet d.task.entities newId = some r ∧ r.title = "Buy milk" ∧
        r.isDone = false ∧ r.projectId = some "P1" ∧ r.tagIds = ["TODAY"]) ∧
      (∀ k, k ≠ newId → dictGet d.task.entities k = dictGet docP1.task.entities k) ∧
      dictGet d.project.entities "P1" =
        some ({ (⟨"Proj", []⟩ : ProjectRec) with taskIds := (⟨"Proj", []⟩ : ProjectRec).taskIds ++ [newId] }) ∧
      dictGet d.tag.entities "TODAY" =
        some ({ (⟨[]⟩ : TagRec) with taskIds := (⟨[]⟩ : TagRec).taskIds ++ [newId] }) :=
  claim_C5_create_task_shape.1 docP1 ⟨"Proj", []⟩ ⟨[]⟩ "Buy milk" 5 "clk"
    (by decide) (by decide) (by decide) (by decide)

/-- C9: `default_project_id` yields `None` exactly when the config path is
missing, the stored value is null, or it is the empty string, and yields the
stored string otherwise; `create_task` with a falsy `project_id` argument
(`None` or `""`) falls back to this resolution (the new task's `projectId`
equals it), and when it yields `None` the new task is tagged TODAY even with
`is_today=False`. -/
theorem claim_C9_default_project_fallback :
    (∀ doc : Document,
      (doc.globalConfigMiscDefaultProjectId = none → default_project_id doc = none) ∧
      (doc.globalConfigMiscDefaultProjectId = some none → default_project_id doc = none) ∧
      (doc.globalConfigMiscDefaultProjectId = some (some "") → default_project_id doc = none) ∧
      (∀ s, s ≠ "" → doc.globalConfigMiscDefaultProjectId = some (some s) →
        default_project_id doc = some s)) ∧
    (∀ (pidArg : Option String) (b : Option String),
      (pidArg = none ∨ pidArg = some "") → pyOrStr pidArg b = b) ∧
    (∀ (doc : Document) (pidArg : Option String) (title : String)
        (nowMillis te : Int) (attachNow : String) (is_today : Bool),
      (pidArg = none ∨ pidArg = some "") →
      (∀ pid, default_project_id doc = some pid → (dictGet doc.project.entities pid).isSome = true) →
      ((is_today || (default_project_id doc).isNone) = true →
        (dictGet doc.tag.entities "TODAY").isSome = true) →
      ∃ d newId r,
        create_task doc nowMillis attachNow title pidArg is_today false te [] = Except.ok (some d) ∧
        new_task_id doc = some newId ∧
        dictGet d.task.entities newId = some r ∧
        r.projectId = default_project_id doc ∧
        (default_project_id doc = none → is_today = false → r.tagIds = ["TODAY"])) := by
  refine ⟨?_, ?_, ?_⟩
  · intro doc
    refine ⟨?_, ?_, ?_, ?_⟩
    · intro h; simp [default_project_id, h]
    · intro h; simp [default_project_id, h]
    · intro h; simp [default_project_id, h]
    · intro s hs h; simp [default_project_id, h, hs]
  · rintro pidArg b (rfl | rfl) <;> simp [pyOrStr]
  · intro doc pidArg title nowMillis te attachNow is_today hfalsy hp ht
    have hres : pyOrStr pidArg (default_project_id doc) = default_project_id doc := by
      rcases hfalsy with rfl | rfl <;> simp [pyOrStr]
    obtain ⟨d, newId, heq, hnid, _, hrec, _, _, _, _, _, _, _, _⟩ :=
      create_task_ok doc nowMillis attachNow title pidArg is_today te []
        (fun pid h => hp pid (by rw [← hres]; exact h))
        (by rw [hres]; exact ht)
    refine ⟨d, newId, _, heq, hnid, hrec, ?_, ?_⟩
    · simp [newTaskRec, hres]
    · intro hdefnone hfalse
      subst hfalse
      have h2 : pyOrStr pidArg (default_project_id doc) = none := by rw [hres, hdefnone]
      simp [h2]

/-- Witness for C9 on a document whose default-project config path is
missing, calling with `project_id=None` and `is_today=False`. -/
theorem claim_C9_witness :
    ∃ d newId r,
      create_task docNoDefault 3 "clk" "t" none false false 0 [] = Except.ok (some d) ∧
      new_task_id docNoDefault = some newId ∧
      dictGet d.task.entities newId = some r ∧
      r.projectId = default_project_id docNoDefault ∧
      (default_project_id docNoDefault = none → false = false → r.tagIds = ["TODAY"]) :=
  claim_C9_default_project_fallback.2.2 docNoDefault none "t" 3 0 "clk" false
    (Or.inl rfl) (fun pid h => Option.noConfusion h) (fun _ => by decide)

end SP
